import Mathlib

/-!
Verification development for the draft review and publish workflow of the
s360-streams repository.  The definitions below are a shallow embedding of
the relevant Python code: the SQLite persistence layer (src/database.py)
and the moderation bot handlers (src/moderation_bot.py).  Stateful code is
modelled by explicit state passing; calls to external services (Telegram
sends, image search, stylization) are modelled by oracle records whose
results are Except values; SQL timestamps are modelled by an explicit
now parameter.
-/

namespace S360

/-! ## Data model: rows of the two SQLite tables (src/database.py). -/

/-- Row of the source_posts table.  message_id is stored as a string
because add_source_post inserts str(message_id). -/
structure SourcePostRow where
  id : Nat
  channel_id : String
  message_id : String
  text_original : String
  photo_file_id : Option String
  date : Nat
  status : String
deriving Repr, DecidableEq

/-- Row of the draft_posts table. -/
structure DraftRow where
  id : Nat
  source_post_id : Nat
  title : String
  body : String
  hashtags : String
  gpt_response_raw : Option String
  image_query : Option String
  final_image_url : Option String
  pexels_images_json : Option String
  status : String
  target_chat_id : Option String
  target_message_id : Option Nat
  created_at : Nat
  updated_at : Nat
deriving Repr, DecidableEq

/-- The whole database: the two tables. -/
structure Db where
  sources : List SourcePostRow
  drafts : List DraftRow
deriving Repr, DecidableEq

/-! ## Database operations (class Database in src/database.py). -/

/-- SQL shape shared by every draft mutation: UPDATE draft_posts SET ... WHERE id = ?. -/
def updateWhereId (rows : List DraftRow) (draft_id : Nat) (f : DraftRow → DraftRow) :
    List DraftRow :=
  rows.map fun r => if r.id == draft_id then f r else r

/-- Database.add_source_post: INSERT with the UNIQUE(channel_id, message_id)
constraint; an IntegrityError (duplicate pair) is caught and None returned,
leaving the table unchanged.  The fresh id models AUTOINCREMENT. -/
def add_source_post (rows : List SourcePostRow) (channel_id : String) (message_id : Nat)
    (text_original : String) (date : Nat) (photo_file_id : Option String) :
    Option Nat × List SourcePostRow :=
  if rows.any fun r => r.channel_id == channel_id && r.message_id == toString message_id then
    (none, rows)
  else
    let post_id := (rows.foldr (fun r m => max r.id m) 0) + 1
    (some post_id,
      rows ++ [⟨post_id, channel_id, toString message_id, text_original, photo_file_id,
        date, "new"⟩])

/-- Result of Database.get_draft_post: the draft row joined with its source post. -/
structure DraftView where
  id : Nat
  source_post_id : Nat
  title : String
  body : String
  hashtags : String
  gpt_response_raw : Option String
  image_query : Option String
  final_image_url : Option String
  pexels_images_json : Option String
  status : String
  target_chat_id : Option String
  target_message_id : Option Nat
  channel_id : String
  message_id : String
  text_original : String
  photo_file_id : Option String
deriving Repr, DecidableEq

/-- Database.get_draft_post: SELECT ... FROM draft_posts d JOIN source_posts s
ON d.source_post_id = s.id WHERE d.id = ?.  The JOIN drops the row when the
owning source post is missing. -/
def get_draft_post (db : Db) (draft_id : Nat) : Option DraftView :=
  match db.drafts.find? fun r => r.id == draft_id with
  | none => none
  | some d =>
    match db.sources.find? fun s => s.id == d.source_post_id with
    | none => none
    | some s =>
      some ⟨d.id, d.source_post_id, d.title, d.body, d.hashtags, d.gpt_response_raw,
        d.image_query, d.final_image_url, d.pexels_images_json, d.status,
        d.target_chat_id, d.target_message_id,
        s.channel_id, s.message_id, s.text_original, s.photo_file_id⟩

/-- Database.update_draft_post: builds the SET clause only from the non-None
arguments; when at least one column is set it also sets
updated_at = CURRENT_TIMESTAMP, and when no argument is given no UPDATE
statement is executed at all. -/
def update_draft_post (db : Db) (now : Nat) (draft_id : Nat)
    (title body hashtags status final_image_url pexels_images_json : Option String) : Db :=
  if title.isSome || body.isSome || hashtags.isSome || status.isSome
      || final_image_url.isSome || pexels_images_json.isSome then
    { db with drafts := updateWhereId db.drafts draft_id fun r =>
        { r with
            title := title.getD r.title
            body := body.getD r.body
            hashtags := hashtags.getD r.hashtags
            status := status.getD r.status
            final_image_url := if final_image_url.isSome then final_image_url
              else r.final_image_url
            pexels_images_json := if pexels_images_json.isSome then pexels_images_json
              else r.pexels_images_json
            updated_at := now } }
  else db

/-- Database.mark_draft_published: UPDATE draft_posts SET status, target and
updated_at WHERE id = ? — unconditional, no status guard. -/
def mark_draft_published (db : Db) (now : Nat) (draft_id : Nat)
    (target_chat_id : String) (target_message_id : Nat) : Db :=
  { db with drafts := updateWhereId db.drafts draft_id fun r =>
      { r with status := "published", target_chat_id := some target_chat_id,
               target_message_id := some target_message_id, updated_at := now } }

/-- Database.mark_draft_rejected: UPDATE draft_posts SET status = rejected
WHERE id = ? — unconditional, no status guard. -/
def mark_draft_rejected (db : Db) (now : Nat) (draft_id : Nat) : Db :=
  { db with drafts := updateWhereId db.drafts draft_id fun r =>
      { r with status := "rejected", updated_at := now } }

/-! ## String helpers mirroring the Python primitives used by the bot. -/

/-- Python str.strip on a character list: drop whitespace from both ends. -/
def pyStrip (l : List Char) : List Char :=
  ((l.dropWhile Char.isWhitespace).reverse.dropWhile Char.isWhitespace).reverse

/-- Python str.strip. -/
def pyStripStr (s : String) : String :=
  String.mk (pyStrip s.toList)

/-- Python str.split on a single newline separator: text.split applied to a
newline, keeping empty pieces. -/
def splitOnNewline : List Char → List (List Char)
  | [] => [[]]
  | c :: rest =>
    if c == '\n' then [] :: splitOnNewline rest
    else
      match splitOnNewline rest with
      | [] => [[c]]
      | l :: ls => (c :: l) :: ls

/-- Python str.startswith. -/
def str_starts_with (s p : String) : Bool :=
  List.isPrefixOf p.toList s.toList

/-! ## Publish orchestrator (ModerationBot._publish_draft, src/moderation_bot.py). -/

/-- Python truthiness of an optional string (None and the empty string are falsy). -/
def strTruthy : Option String → Bool
  | none => false
  | some s => s ≠ ""

/-- Image resolution in _publish_draft (lines 1967-1973): final_image_url is
used when truthy, otherwise the photo_file_id argument, otherwise no image.
The choice between the URL branch and the file_id branch downstream is made
by the http prefix check on the resulting string. -/
def resolve_publish_image (final_image_url photo_file_id : Option String) : Option String :=
  if strTruthy final_image_url then final_image_url
  else if strTruthy photo_file_id then photo_file_id
  else none

/-- Post text composition in _publish_draft: the body is used directly when
non-blank; otherwise the legacy title/body/hashtags format. -/
def build_post_text (title body hashtags : String) : String :=
  if body != "" && pyStripStr body != "" then body
  else if body != "" then title ++ "\n\n" ++ body ++ "\n\n" ++ hashtags
  else title ++ "\n\n" ++ hashtags

/-- Oracle for the Telegram bot boundary used by _publish_draft.  Each field
models one network call shape: send_photo on a freshly downloaded URL image
(download and send combined, both inside one try), send_photo by file_id,
the get_file/download/send_photo fallback for a document file_id, and
send_message.  Arguments are the channel and the image or text. -/
structure Sender where
  sendPhotoByUrl : String → String → Except String Nat
  sendPhotoByFileId : String → String → Except String Nat
  sendPhotoDownloadedFile : String → String → Except String Nat
  sendMessage : String → String → Except String Nat

/-- One iteration of the channel loop of _publish_draft: attempts the send
for one channel and returns the message id on success together with the
error strings appended for this channel.  Mirrors the three branches:
URL image (with text-only fallback), file_id image (with download fallback
then text-only fallback), and text-only. -/
def run_channel (sender : Sender) (img : Option String) (post_text : String)
    (channel_id : String) : Option Nat × List String :=
  match img with
  | some i =>
    if str_starts_with i "http://" || str_starts_with i "https://" then
      match sender.sendPhotoByUrl channel_id i with
      | .ok m => (some m, [])
      | .error e =>
        match sender.sendMessage channel_id post_text with
        | .ok m =>
          (some m, ["Канал " ++ channel_id ++ ": не удалось отправить фото (" ++ e ++ ")"])
        | .error e2 => (none, ["Канал " ++ channel_id ++ ": " ++ e2])
    else
      match sender.sendPhotoByFileId channel_id i with
      | .ok m => (some m, [])
      | .error _ =>
        match sender.sendPhotoDownloadedFile channel_id i with
        | .ok m => (some m, [])
        | .error e =>
          match sender.sendMessage channel_id post_text with
          | .ok m =>
            (some m, ["Канал " ++ channel_id ++ ": не удалось отправить фото (" ++ e ++ ")"])
          | .error e2 => (none, ["Канал " ++ channel_id ++ ": " ++ e2])
  | none =>
    if post_text == "" || pyStripStr post_text == "" then
      (none, ["Канал " ++ channel_id ++ ": post_text пустой"])
    else
      match sender.sendMessage channel_id post_text with
      | .ok m => (some m, [])
      | .error e2 => (none, ["Канал " ++ channel_id ++ ": " ++ e2])

/-- The sequential channel loop of _publish_draft, threading published_count,
the first successful channel and message id (the pair recorded by
mark_draft_published, written only while published_count == 0), and the
accumulated error list. -/
def publish_loop (sender : Sender) (img : Option String) (post_text : String) :
    List String → Nat → Option (String × Nat) → List String →
    Nat × Option (String × Nat) × List String
  | [], cnt, fs, errs => (cnt, fs, errs)
  | c :: rest, cnt, fs, errs =>
    match run_channel sender img post_text c with
    | (some m, es) =>
      publish_loop sender img post_text rest (cnt + 1)
        (if cnt == 0 then some (c, m) else fs) (errs ++ es)
    | (none, es) =>
      publish_loop sender img post_text rest cnt fs (errs ++ es)

/-- Observable outcome of one _publish_draft call: the database afterwards,
the published_count and error list of the loop, and the messages sent to
the triggering moderator. -/
structure PublishResult where
  db : Db
  publishedCount : Nat
  errors : List String
  userMessages : List (Nat × String)
deriving Repr, DecidableEq

/-- ModerationBot._publish_draft: fetches the draft (a missing draft returns
with no effect), composes the post text (raising ValueError when blank),
resolves the image, iterates the channels, commits mark_draft_published on
the first success only, and finally reports the aggregated error list to
user_id when both are present. -/
def publish_draft (db : Db) (now : Nat) (draft_id : Nat) (target_channels : List String)
    (photo_file_id : Option String) (user_id : Option Nat) (sender : Sender) :
    Except String PublishResult :=
  match get_draft_post db draft_id with
  | none => .ok ⟨db, 0, [], []⟩
  | some d =>
    let post_text := build_post_text d.title d.body d.hashtags
    if post_text == "" || pyStripStr post_text == "" then .error "post_text is empty"
    else
      let img := resolve_publish_image d.final_image_url photo_file_id
      match publish_loop sender img post_text target_channels 0 none [] with
      | (cnt, fs, errs) =>
        let db' := match fs with
          | some (c, m) => mark_draft_published db now draft_id c m
          | none => db
        let msgs := match user_id with
          | some u =>
            if errs.isEmpty then []
            else [(u, "⚠️ Ошибки при публикации:\n" ++ String.intercalate "\n" errs)]
          | none => []
        .ok ⟨db', cnt, errs, msgs⟩

/-! ## Operator session state (self.publishing_states in ModerationBot). -/

/-- The publishing_states dictionary: user id mapped to the pair of draft id
and the selected channel list, modelled as an association list with dict
update semantics. -/
def PubStates := List (Nat × Nat × List String)
deriving Repr, DecidableEq

/-- Dictionary write publishing_states[user] = (draft, channels). -/
def setPubState (st : PubStates) (user draft : Nat) (channels : List String) : PubStates :=
  if (List.any st fun p => p.1 == user) then
    List.map (fun p => if p.1 == user then (user, draft, channels) else p) st
  else
    List.append st [(user, draft, channels)]

/-- Dictionary delete del publishing_states[user] (guarded by membership). -/
def removePubState (st : PubStates) (user : Nat) : PubStates :=
  List.filter (fun p => !(p.1 == user)) st

/-- Dictionary read publishing_states.get(user). -/
def lookupPubState (st : PubStates) (user : Nat) : Option (Nat × List String) :=
  Option.map (fun p => p.2) (List.find? (fun p => p.1 == user) st)

/-! ## Approve handler (ModerationBot._handle_approve, lines 460-604). -/

/-- The distinct continuations of _handle_approve.  There is no branch for a
terminal draft: the function never inspects the status field. -/
inductive ApproveResult where
  /-- callback_handler found no draft for the id and stopped. -/
  | notFound : ApproveResult
  /-- final_image_url truthy and a single configured channel: _publish_draft
  ran immediately. -/
  | publishedNow (channel : String) : ApproveResult
  /-- final_image_url truthy, several configured channels: the channel
  selection menu is shown. -/
  | chooseChannels : ApproveResult
  /-- no final image: the publication options menu is shown, with the source
  photo button present iff the source post has a photo. -/
  | publishOptions (hasSourcePhoto : Bool) : ApproveResult
deriving Repr, DecidableEq

/-- Observable outcome of the approve action. -/
structure ApproveOut where
  result : ApproveResult
  db : Db
  states : PubStates
  userMessages : List (Nat × String)
deriving Repr, DecidableEq

/-- The approve callback: callback_handler fetches the draft (stopping on a
missing one), then _handle_approve branches only on final_image_url, the
configured channel count and the source photo — never on the draft status.
In the immediate-publish branch the publishing state is set, _publish_draft
runs, and the state is deleted again. -/
def handle_approve (db : Db) (now : Nat) (draft_id : Nat) (cfgChannels : List String)
    (st : PubStates) (user : Nat) (sender : Sender) : Except String ApproveOut :=
  match get_draft_post db draft_id with
  | none => .ok ⟨.notFound, db, st, []⟩
  | some d =>
    if strTruthy d.final_image_url then
      if cfgChannels.length == 1 then
        let c := cfgChannels.headD ""
        let st1 := setPubState st user draft_id [c]
        match publish_draft db now draft_id [c] none (some user) sender with
        | .error e => .error e
        | .ok r => .ok ⟨.publishedNow c, r.db, removePubState st1 user, r.userMessages⟩
      else
        .ok ⟨.chooseChannels, db, setPubState st user draft_id [], []⟩
    else
      let c0 := cfgChannels.headD ""
      .ok ⟨.publishOptions (strTruthy d.photo_file_id), db,
        setPubState st user draft_id [c0], []⟩

/-! ## Channel toggling (ModerationBot._handle_toggle_channel, lines 701-740). -/

/-- The in-place list mutation of the selected channels: remove the first
occurrence when present (list.remove), append otherwise. -/
def toggle_channel (selected : List String) (channel_id : String) : List String :=
  if selected.contains channel_id then selected.erase channel_id
  else selected ++ [channel_id]

/-- _handle_toggle_channel: create the state (draft_id, []) when the user has
none, then toggle the channel inside the stored pair.  The stored draft id
is the existing one (the list is mutated in place). -/
def handle_toggle_channel (st : PubStates) (user draft_id : Nat) (channel_id : String) :
    PubStates :=
  let st1 := if (List.any st fun p => p.1 == user) then st
    else List.append st [(user, draft_id, [])]
  List.map (fun p => if p.1 == user then (p.1, p.2.1, toggle_channel p.2.2 channel_id) else p)
    st1

/-! ## Draft delivery scheduler (_check_and_send_new_drafts and
_send_draft_to_moderators, src/moderation_bot.py lines 177-320). -/

/-- The slice of a pending draft row that the scheduler inspects: its id and
the age in hours parsed from created_at (none when the timestamp is missing
or unparseable, in which case no skip happens). -/
structure PendingDraftInfo where
  id : Nat
  ageHours : Option Nat
deriving Repr, DecidableEq

/-- Python set equality of the two id collections (sent_to == set(MODERATOR_IDS)). -/
def setEqList (a b : List Nat) : Bool :=
  (a.all fun x => b.contains x) && (b.all fun x => a.contains x)

/-- The sent_drafts dictionary: draft id mapped to the list of moderators the
draft was delivered to. -/
def SentDrafts := List (Nat × List Nat)
deriving Repr, DecidableEq

/-- Dictionary read sent_drafts.get(draft_id). -/
def lookupSent (sent : SentDrafts) (draft_id : Nat) : Option (List Nat) :=
  Option.map (fun p => p.2) (List.find? (fun p => p.1 == draft_id) sent)

/-- Dictionary write sent_drafts[draft_id] = sent_to (overwrite, not union). -/
def setSent (sent : SentDrafts) (draft_id : Nat) (v : List Nat) : SentDrafts :=
  if (List.any sent fun p => p.1 == draft_id) then
    List.map (fun p => if p.1 == draft_id then (draft_id, v) else p) sent
  else
    List.append sent [(draft_id, v)]

/-- _send_draft_to_moderators: iterates over ALL of config.MODERATOR_IDS (not
only the un-notified ones); a per-moderator send failure is caught and only
logged.  okSend says whether the delivery to a moderator succeeds.  Returns
the updated sent_drafts (overwritten with exactly the successful set, and
untouched when no send succeeded) and the delivery events (moderator, draft). -/
def send_draft_to_moderators (moderators : List Nat) (okSend : Nat → Bool)
    (draft_id : Nat) (sent : SentDrafts) : SentDrafts × List (Nat × Nat) :=
  let sent_to := moderators.filter okSend
  let events := sent_to.map fun m => (m, draft_id)
  let sent' := if sent_to.isEmpty then sent else setSent sent draft_id sent_to
  (sent', events)

/-- _check_and_send_new_drafts (one tick): takes the first
MAX_DRAFTS_PER_CHECK = 1 pending drafts; a draft already recorded as sent to
the full moderator set is skipped, as is a draft older than 168 hours;
otherwise it is sent to every moderator. -/
def check_and_send_new_drafts (moderators : List Nat) (okSend : Nat → Bool)
    (pending : List PendingDraftInfo) (sent : SentDrafts) :
    SentDrafts × List (Nat × Nat) :=
  let selected := pending.take 1
  selected.foldl
    (fun acc d =>
      match lookupSent acc.1 d.id with
      | some s =>
        if setEqList s moderators then acc
        else
          match d.ageHours with
          | some a =>
            if a > 168 then acc
            else
              let r := send_draft_to_moderators moderators okSend d.id acc.1
              (r.1, acc.2 ++ r.2)
          | none =>
            let r := send_draft_to_moderators moderators okSend d.id acc.1
            (r.1, acc.2 ++ r.2)
      | none =>
        match d.ageHours with
        | some a =>
          if a > 168 then acc
          else
            let r := send_draft_to_moderators moderators okSend d.id acc.1
            (r.1, acc.2 ++ r.2)
        | none =>
          let r := send_draft_to_moderators moderators okSend d.id acc.1
          (r.1, acc.2 ++ r.2))
    (sent, [])

/-- A run of the periodic delivery loop: one tick per element of oracles,
each with its own per-moderator delivery outcome; the pending set is a fixed
store snapshot (delivery never mutates the store).  Returns the final
sent_drafts and the concatenated delivery events. -/
def run_ticks (moderators : List Nat) (pending : List PendingDraftInfo) :
    List (Nat → Bool) → SentDrafts → SentDrafts × List (Nat × Nat)
  | [], sent => (sent, [])
  | ok :: rest, sent =>
    let r1 := check_and_send_new_drafts moderators ok pending sent
    let r2 := run_ticks moderators pending rest r1.1
    (r2.1, r1.2 ++ r2.2)

/-! ## Operator text parsing (_parse_hashtags_from_text and
_parse_title_and_body, src/moderation_bot.py lines 134-175). -/

/-- A word character of the regex class backslash-w for the ASCII inputs at
hand: letters, digits and the underscore. -/
def isWordChar (c : Char) : Bool :=
  c.isAlphanum || c == '_'

/-- Leftmost non-overlapping scan of the pattern hash-sign followed by one or
more word characters, as re.findall and re.sub apply it: returns the matched
hashtag strings in order and the text with every match deleted.  The fuel
argument (always at least the input length) makes the recursion structural. -/
def scanHashtagsF : Nat → List Char → List String × List Char
  | 0, l => ([], l)
  | _ + 1, [] => ([], [])
  | fuel + 1, c :: rest =>
    if c == '#' then
      let word := rest.takeWhile isWordChar
      if word.isEmpty then
        let r := scanHashtagsF fuel rest
        (r.1, c :: r.2)
      else
        let r := scanHashtagsF fuel (rest.dropWhile isWordChar)
        (String.mk ('#' :: word) :: r.1, r.2)
    else
      let r := scanHashtagsF fuel rest
      (r.1, c :: r.2)

/-- The hashtag scan with enough fuel for the whole input. -/
def scanHashtags (text : String) : List String × List Char :=
  scanHashtagsF (text.toList.length + 1) text.toList

/-- _parse_hashtags_from_text: finds all hashtags, joins them with single
spaces, deletes them from the text and strips the remainder. -/
def parse_hashtags_from_text (text : String) : String × String :=
  let r := scanHashtags text
  (String.mk (pyStrip r.2), String.intercalate " " r.1)

/-- _parse_title_and_body: split on newlines, strip each line, drop blank
lines; the first line is the title and the rest joined by newlines the body. -/
def parse_title_and_body (text : String) : String × String :=
  let lines := (((splitOnNewline text.toList).map pyStrip).filter
    fun l => !l.isEmpty).map String.mk
  match lines with
  | [] => ("", "")
  | t :: rest => (t, String.intercalate "\n" rest)

/-- _handle_edit_text: parse the operator text; a missing title line is a
retryable error leaving the database untouched (and the editing state is
kept either way); otherwise the draft is updated with the parsed title, body
and hashtag string. -/
def handle_edit_text (db : Db) (now : Nat) (draft_id : Nat) (text : String) :
    Db × Option String :=
  let p := parse_hashtags_from_text text
  let tb := parse_title_and_body p.1
  if tb.1 == "" then
    (db, some "❌ Не удалось определить заголовок. Убедитесь, что первая строка — это заголовок.")
  else
    (update_draft_post db now draft_id (some tb.1) (some tb.2) (some p.2) none none none,
      none)

/-! ## Helper lemmas about the row-update and association-list shapes. -/

theorem find?_map_ite {α : Type} (l : List α) (p : α → Bool) (f : α → α)
    (hf : ∀ a, p (f a) = p a) :
    (l.map fun a => if p a then f a else a).find? p = (l.find? p).map f := by
  induction l with
  | nil => rfl
  | cons a t ih =>
    cases h : p a with
    | true =>
      simp [List.find?_cons, h, hf a]
    | false =>
      simp [List.find?_cons, h, ih]

theorem mem_map_ite_of_neg {α : Type} {l : List α} {p : α → Bool} {f : α → α} {a : α}
    (ha : a ∈ l) (hp : p a = false) :
    a ∈ l.map fun x => if p x then f x else x := by
  have h := List.mem_map_of_mem (fun x => if p x then f x else x) ha
  simpa [hp] using h

/-! ## Claim C8: duplicate ingestion is a no-op. -/

/-- Number of source rows carrying a given (channel_id, message_id) pair. -/
def source_pair_count (rows : List SourcePostRow) (channel_id : String) (message_id : Nat) :
    Nat :=
  (rows.filter fun r =>
    r.channel_id == channel_id && r.message_id == toString message_id).length

theorem source_pair_count_zero_any {rows : List SourcePostRow} {ch : String} {mid : Nat}
    (h : source_pair_count rows ch mid = 0) :
    (rows.any fun r => r.channel_id == ch && r.message_id == toString mid) = false := by
  unfold source_pair_count at h
  rw [List.length_eq_zero] at h
  cases ha : rows.any fun r => r.channel_id == ch && r.message_id == toString mid with
  | false => rfl
  | true =>
    rw [List.any_eq_true] at ha
    obtain ⟨r, hr, hpr⟩ := ha
    have : r ∈ rows.filter fun r => r.channel_id == ch && r.message_id == toString mid :=
      List.mem_filter.mpr ⟨hr, hpr⟩
    rw [h] at this
    exact absurd this (List.not_mem_nil r)

/-- Claim C8: inserting a source post with a (channel_id, message_id) pair
that already exists leaves exactly one SourcePost row for that pair and
makes the second insert return the duplicate indicator (none) rather than
raising an error: starting from a table with no row for the pair, the first
add_source_post succeeds, the second returns none and leaves the table
exactly as the first left it, with exactly one row for the pair. -/
theorem c8_duplicate_ingestion_noop (rows : List SourcePostRow) (ch : String) (mid : Nat)
    (t1 t2 : String) (d1 d2 : Nat) (p1 p2 : Option String)
    (h0 : source_pair_count rows ch mid = 0) :
    (add_source_post rows ch mid t1 d1 p1).1.isSome = true ∧
    (add_source_post (add_source_post rows ch mid t1 d1 p1).2 ch mid t2 d2 p2).1 = none ∧
    (add_source_post (add_source_post rows ch mid t1 d1 p1).2 ch mid t2 d2 p2).2 =
      (add_source_post rows ch mid t1 d1 p1).2 ∧
    source_pair_count (add_source_post rows ch mid t1 d1 p1).2 ch mid = 1 := by
  have hany := source_pair_count_zero_any h0
  have hc1 : ¬ ((rows.any fun r =>
      r.channel_id == ch && r.message_id == toString mid) = true) := by
    rw [hany]
    exact Bool.false_ne_true
  have hfirst : add_source_post rows ch mid t1 d1 p1 =
      (some ((rows.foldr (fun r m => max r.id m) 0) + 1),
        rows ++ [⟨(rows.foldr (fun r m => max r.id m) 0) + 1, ch, toString mid, t1, p1,
          d1, "new"⟩]) := by
    unfold add_source_post
    rw [if_neg hc1]
  have hc2 : (((rows ++ ([⟨(rows.foldr (fun r m => max r.id m) 0) + 1, ch, toString mid,
      t1, p1, d1, "new"⟩] : List SourcePostRow)).any fun r =>
        r.channel_id == ch && r.message_id == toString mid) = true) := by
    simp
  have hsecond : add_source_post (rows ++ ([⟨(rows.foldr (fun r m => max r.id m) 0) + 1,
      ch, toString mid, t1, p1, d1, "new"⟩] : List SourcePostRow)) ch mid t2 d2 p2 =
      (none, rows ++ ([⟨(rows.foldr (fun r m => max r.id m) 0) + 1, ch, toString mid, t1,
        p1, d1, "new"⟩] : List SourcePostRow)) := by
    unfold add_source_post
    rw [if_pos hc2]
  have h0' : (rows.filter fun r =>
      r.channel_id == ch && r.message_id == toString mid) = [] := by
    unfold source_pair_count at h0
    rwa [List.length_eq_zero] at h0
  refine ⟨?_, ?_, ?_, ?_⟩
  · rw [hfirst]
    rfl
  · rw [hfirst]
    show (add_source_post (rows ++ [_]) ch mid t2 d2 p2).1 = none
    rw [hsecond]
  · rw [hfirst]
    show (add_source_post (rows ++ [_]) ch mid t2 d2 p2).2 = _
    rw [hsecond]
  · rw [hfirst]
    show source_pair_count (rows ++ [_]) ch mid = 1
    unfold source_pair_count
    rw [List.filter_append, h0']
    simp

/-- Witness for c8_duplicate_ingestion_noop at a concrete table and pair. -/
theorem c8_duplicate_ingestion_noop_witness :
    (add_source_post [] "@src" 42 "hello" 0 none).1.isSome = true ∧
    (add_source_post (add_source_post [] "@src" 42 "hello" 0 none).2 "@src" 42 "again" 1
      (some "f")).1 = none ∧
    (add_source_post (add_source_post [] "@src" 42 "hello" 0 none).2 "@src" 42 "again" 1
      (some "f")).2 = (add_source_post [] "@src" 42 "hello" 0 none).2 ∧
    source_pair_count (add_source_post [] "@src" 42 "hello" 0 none).2 "@src" 42 = 1 :=
  c8_duplicate_ingestion_noop [] "@src" 42 "hello" "again" 0 1 none (some "f") (by decide)

/-! ## Claim C10: partial-update frame property of update_draft_post. -/

/-- Claim C10 (implicit frame property): update_draft_post modifies only the
draft fields passed as non-None arguments plus the updated_at timestamp —
the untouched columns of that row, every other draft row, and the whole
source_posts table are unchanged — and a call in which every optional
argument is None changes nothing at all, not even updated_at. -/
theorem c10_update_frame (db : Db) (now : Nat) (draft_id : Nat)
    (t b h st fi pj : Option String) (r : DraftRow)
    (hfind : db.drafts.find? (fun x => x.id == draft_id) = some r) :
    update_draft_post db now draft_id none none none none none none = db ∧
    (update_draft_post db now draft_id t b h st fi pj).sources = db.sources ∧
    (∀ x ∈ db.drafts, x.id ≠ draft_id →
      x ∈ (update_draft_post db now draft_id t b h st fi pj).drafts) ∧
    ((t.isSome || b.isSome || h.isSome || st.isSome || fi.isSome || pj.isSome) = true →
      ∃ r', (update_draft_post db now draft_id t b h st fi pj).drafts.find?
          (fun x => x.id == draft_id) = some r' ∧
        r'.title = t.getD r.title ∧
        r'.body = b.getD r.body ∧
        r'.hashtags = h.getD r.hashtags ∧
        r'.status = st.getD r.status ∧
        r'.final_image_url = (if fi.isSome then fi else r.final_image_url) ∧
        r'.pexels_images_json = (if pj.isSome then pj else r.pexels_images_json) ∧
        r'.updated_at = now ∧
        r'.id = r.id ∧
        r'.source_post_id = r.source_post_id ∧
        r'.gpt_response_raw = r.gpt_response_raw ∧
        r'.image_query = r.image_query ∧
        r'.target_chat_id = r.target_chat_id ∧
        r'.target_message_id = r.target_message_id ∧
        r'.created_at = r.created_at) := by
  refine ⟨rfl, ?_, ?_, ?_⟩
  · unfold update_draft_post
    by_cases hc : (t.isSome || b.isSome || h.isSome || st.isSome || fi.isSome
        || pj.isSome) = true
    · rw [if_pos hc]
    · rw [if_neg hc]
  · intro x hx hne
    unfold update_draft_post
    by_cases hc : (t.isSome || b.isSome || h.isSome || st.isSome || fi.isSome
        || pj.isSome) = true
    · rw [if_pos hc]
      show x ∈ updateWhereId db.drafts draft_id _
      unfold updateWhereId
      exact mem_map_ite_of_neg hx (by simp [hne])
    · rw [if_neg hc]
      exact hx
  · intro hc
    unfold update_draft_post
    rw [if_pos hc]
    have heq := find?_map_ite db.drafts (fun x => x.id == draft_id)
      (fun x => ({ x with
        title := t.getD x.title
        body := b.getD x.body
        hashtags := h.getD x.hashtags
        status := st.getD x.status
        final_image_url := if fi.isSome then fi else x.final_image_url
        pexels_images_json := if pj.isSome then pj else x.pexels_images_json
        updated_at := now } : DraftRow)) (fun a => rfl)
    rw [hfind] at heq
    exact ⟨_, heq, rfl, rfl, rfl, rfl, rfl, rfl, rfl, rfl, rfl, rfl, rfl, rfl, rfl, rfl⟩

/-- Concrete draft rows and database used by several witnesses below. -/
def sampleSource : SourcePostRow :=
  ⟨1, "@src", "5", "original text", some "photo5", 0, "processed"⟩

def samplePendingDraft : DraftRow :=
  ⟨1, 1, "Old title", "Old body", "#old", some "raw", some "tennis", none, none,
    "pending_moderation", none, none, 0, 0⟩

def sampleDb : Db := ⟨[sampleSource], [samplePendingDraft]⟩

/-- Witness for c10_update_frame at a concrete database and update. -/
theorem c10_update_frame_witness :
    update_draft_post sampleDb 9 1 none none none none none none = sampleDb ∧
    (update_draft_post sampleDb 9 1 (some "T") none none none none none).sources
      = sampleDb.sources ∧
    (∀ x ∈ sampleDb.drafts, x.id ≠ 1 →
      x ∈ (update_draft_post sampleDb 9 1 (some "T") none none none none none).drafts) ∧
    (((some "T" : Option String).isSome || (none : Option String).isSome
        || (none : Option String).isSome || (none : Option String).isSome
        || (none : Option String).isSome || (none : Option String).isSome) = true →
      ∃ r', (update_draft_post sampleDb 9 1 (some "T") none none none none
          none).drafts.find? (fun x => x.id == 1) = some r' ∧
        r'.title = (some "T" : Option String).getD samplePendingDraft.title ∧
        r'.body = (none : Option String).getD samplePendingDraft.body ∧
        r'.hashtags = (none : Option String).getD samplePendingDraft.hashtags ∧
        r'.status = (none : Option String).getD samplePendingDraft.status ∧
        r'.final_image_url = (if (none : Option String).isSome then none
          else samplePendingDraft.final_image_url) ∧
        r'.pexels_images_json = (if (none : Option String).isSome then none
          else samplePendingDraft.pexels_images_json) ∧
        r'.updated_at = 9 ∧
        r'.id = samplePendingDraft.id ∧
        r'.source_post_id = samplePendingDraft.source_post_id ∧
        r'.gpt_response_raw = samplePendingDraft.gpt_response_raw ∧
        r'.image_query = samplePendingDraft.image_query ∧
        r'.target_chat_id = samplePendingDraft.target_chat_id ∧
        r'.target_message_id = samplePendingDraft.target_message_id ∧
        r'.created_at = samplePendingDraft.created_at) :=
  c10_update_frame sampleDb 9 1 (some "T") none none none none none samplePendingDraft
    (by decide)

/-! ## Claim C9: channel-toggle involution. -/

theorem toggle_channel_nodup {sel : List String} {c : String} (hn : sel.Nodup) :
    (toggle_channel sel c).Nodup := by
  unfold toggle_channel
  by_cases hm : sel.contains c = true
  · rw [if_pos hm]
    exact hn.erase c
  · rw [if_neg hm]
    rw [List.nodup_append]
    refine ⟨hn, List.nodup_singleton c, ?_⟩
    intro a ha hb
    rw [List.mem_singleton] at hb
    subst hb
    exact hm (List.elem_iff.mpr ha)

theorem toggle_channel_twice_mem (sel : List String) (c : String) (hn : sel.Nodup) :
    ∀ x, x ∈ toggle_channel (toggle_channel sel c) c ↔ x ∈ sel := by
  intro x
  unfold toggle_channel
  by_cases hm : sel.contains c = true
  · rw [if_pos hm]
    have hce : ¬ (sel.erase c).contains c = true := by
      intro hc
      exact hn.not_mem_erase (List.elem_iff.mp hc)
    rw [if_neg hce, List.mem_append, hn.mem_erase_iff, List.mem_singleton]
    have hcm : c ∈ sel := List.elem_iff.mp hm
    constructor
    · rintro (⟨_, h⟩ | rfl)
      · exact h
      · exact hcm
    · intro h
      by_cases hx : x = c
      · exact Or.inr hx
      · exact Or.inl ⟨hx, h⟩
  · rw [if_neg hm]
    have hnotin : c ∉ sel := fun h => hm (List.elem_iff.mpr h)
    have hc2 : (sel ++ [c]).contains c = true :=
      List.elem_iff.mpr (List.mem_append.mpr (Or.inr (List.mem_singleton.mpr rfl)))
    rw [if_pos hc2, List.erase_append_right _ hnotin]
    simp

/-- Claim C9: toggling a channel twice in succession returns the moderator
session's selected-channel set to its original state (checkbox semantics):
through _handle_toggle_channel the stored entry keeps its draft id and its
channel list returns to the original one up to membership, staying
duplicate-free.  (Reachable selections are duplicate-free since toggling
only appends a channel that is absent.) -/
theorem c9_toggle_involution (st : PubStates) (user draft : Nat) (c : String)
    (d : Nat) (sel : List String)
    (hfind : lookupPubState st user = some (d, sel)) (hn : sel.Nodup) :
    lookupPubState
        (handle_toggle_channel (handle_toggle_channel st user draft c) user draft c)
        user = some (d, toggle_channel (toggle_channel sel c) c) ∧
    (∀ x, x ∈ toggle_channel (toggle_channel sel c) c ↔ x ∈ sel) ∧
    (toggle_channel (toggle_channel sel c) c).Nodup := by
  have hfind' : st.find? (fun p => p.1 == user) = some (user, d, sel) := by
    unfold lookupPubState at hfind
    cases hf : st.find? fun p => p.1 == user with
    | none => rw [hf] at hfind; exact absurd hfind (by simp)
    | some p =>
      rw [hf] at hfind
      have hp1 : p.1 = user := by
        have := List.find?_some hf
        simpa using this
      have hp2 : p.2 = (d, sel) := by simpa using hfind
      cases p with
      | mk a b =>
        simp only at hp1 hp2
        rw [hp1, hp2]
  have hany1 : (List.any st fun p => p.1 == user) = true := by
    rw [List.any_eq_true]
    exact ⟨(user, d, sel), List.mem_of_find?_eq_some hfind', by simp⟩
  have step : ∀ (s : PubStates) (dd : Nat) (ss : List String),
      s.find? (fun p => p.1 == user) = some (user, dd, ss) →
      (handle_toggle_channel s user draft c).find? (fun p => p.1 == user)
        = some (user, dd, toggle_channel ss c) := by
    intro s dd ss hf
    unfold handle_toggle_channel
    have hanys : (List.any s fun p => p.1 == user) = true := by
      rw [List.any_eq_true]
      exact ⟨(user, dd, ss), List.mem_of_find?_eq_some hf, by simp⟩
    rw [if_pos hanys]
    have heq := find?_map_ite s (fun p => p.1 == user)
      (fun p => (p.1, p.2.1, toggle_channel p.2.2 c)) (fun a => rfl)
    have heq' : (List.map (fun p => if p.1 == user then
        (p.1, p.2.1, toggle_channel p.2.2 c) else p) s).find? (fun p => p.1 == user)
        = some (user, dd, toggle_channel ss c) := by
      have : (List.map (fun a => if (fun p => p.1 == user) a = true then
          (fun p => (p.1, p.2.1, toggle_channel p.2.2 c)) a else a) s).find?
            (fun p => p.1 == user)
          = (s.find? fun p => p.1 == user).map
            (fun p => (p.1, p.2.1, toggle_channel p.2.2 c)) := heq
      rw [hf] at this
      exact this
    exact heq'
  have h1 := step st d sel hfind'
  have h2 := step _ d (toggle_channel sel c) h1
  refine ⟨?_, toggle_channel_twice_mem sel c hn, toggle_channel_nodup
    (toggle_channel_nodup hn)⟩
  unfold lookupPubState
  rw [h2]
  rfl

/-- Witness for c9_toggle_involution at a concrete session. -/
theorem c9_toggle_involution_witness :
    lookupPubState
        (handle_toggle_channel
          (handle_toggle_channel [(7, 1, ["@a", "@b"])] 7 1 "@b") 7 1 "@b")
        7 = some (1, toggle_channel (toggle_channel ["@a", "@b"] "@b") "@b") ∧
    (∀ x, x ∈ toggle_channel (toggle_channel ["@a", "@b"] "@b") "@b" ↔
      x ∈ ["@a", "@b"]) ∧
    (toggle_channel (toggle_channel ["@a", "@b"] "@b") "@b").Nodup :=
  c9_toggle_involution [(7, 1, ["@a", "@b"])] 7 1 "@b" 1 ["@a", "@b"] (by decide)
    (by decide)

/-! ## Claim C7: edit round-trip. -/

/-- Claim C7: submitting the text Title, Body line 1, Body line 2 followed by
the two hashtag tokens while in editing state yields a draft whose title is
Title, whose body is the two body lines, and whose tags are exactly the two
hashtag tokens, with the tag tokens removed from the body. -/
theorem c7_edit_round_trip :
    (scanHashtags "Title\nBody line 1\nBody line 2 #tag1 #tag2").1
      = ["#tag1", "#tag2"] ∧
    parse_hashtags_from_text "Title\nBody line 1\nBody line 2 #tag1 #tag2"
      = ("Title\nBody line 1\nBody line 2", "#tag1 #tag2") ∧
    (handle_edit_text sampleDb 3 1 "Title\nBody line 1\nBody line 2 #tag1 #tag2").2
      = none ∧
    ((handle_edit_text sampleDb 3 1
        "Title\nBody line 1\nBody line 2 #tag1 #tag2").1.drafts.map
      fun r => (r.title, r.body, r.hashtags))
      = [("Title", "Body line 1\nBody line 2", "#tag1 #tag2")] := by
  refine ⟨by decide, by decide, by decide, by decide⟩

/-! ## Claim C1: status monotonicity of terminal drafts. -/

/-- A draft already in the terminal status published, with a recorded target. -/
def c1PublishedRow : DraftRow :=
  ⟨1, 1, "T", "B", "#h", none, none, none, none, "published", some "@chan", some 10, 0, 0⟩

def c1Db : Db := ⟨[sampleSource], [c1PublishedRow]⟩

/-- Counterexample to claim C1: the reject action (handled by
Database.mark_draft_rejected via _handle_reject, with no status guard
anywhere on the path) applied to a draft whose status is the terminal
published changes that status to rejected, so a subsequent moderator action
does mutate a terminal draft. -/
theorem c1_counterexample :
    c1PublishedRow.status = "published" ∧
    ((mark_draft_rejected c1Db 7 1).drafts.map fun r => r.status) = ["rejected"] := by
  refine ⟨rfl, by decide⟩

/-- Amended claim C1: no moderator action is guarded by terminal status.
For a draft in any status — including the terminal published and rejected —
the reject action sets the status to rejected (touching no content field but
updated_at), and the edit action overwrites title, body and hashtags.
Status monotonicity survives only in the degenerate case of rejecting an
already-rejected draft. -/
theorem c1_amended_no_terminal_guard (db : Db) (now draft_id : Nat)
    (t b h : String) (r : DraftRow)
    (hfind : db.drafts.find? (fun x => x.id == draft_id) = some r) :
    (mark_draft_rejected db now draft_id).drafts.find? (fun x => x.id == draft_id)
      = some { r with status := "rejected", updated_at := now } ∧
    (update_draft_post db now draft_id (some t) (some b) (some h) none none
        none).drafts.find? (fun x => x.id == draft_id)
      = some { r with title := t, body := b, hashtags := h, updated_at := now } := by
  constructor
  · unfold mark_draft_rejected updateWhereId
    have heq := find?_map_ite db.drafts (fun x => x.id == draft_id)
      (fun x => ({ x with status := "rejected", updated_at := now } : DraftRow))
      (fun a => rfl)
    rw [hfind] at heq
    exact heq
  · unfold update_draft_post
    rw [if_pos (by rfl)]
    have heq := find?_map_ite db.drafts (fun x => x.id == draft_id)
      (fun x => ({ x with
        title := (some t).getD x.title
        body := (some b).getD x.body
        hashtags := (some h).getD x.hashtags
        status := (none : Option String).getD x.status
        final_image_url := if (none : Option String).isSome then none
          else x.final_image_url
        pexels_images_json := if (none : Option String).isSome then none
          else x.pexels_images_json
        updated_at := now } : DraftRow)) (fun a => rfl)
    rw [hfind] at heq
    exact heq

/-- Witness for c1_amended_no_terminal_guard at a concrete published draft. -/
theorem c1_amended_witness :
    (mark_draft_rejected c1Db 7 1).drafts.find? (fun x => x.id == 1)
      = some { c1PublishedRow with status := "rejected", updated_at := 7 } ∧
    (update_draft_post c1Db 7 1 (some "NT") (some "NB") (some "#n") none none
        none).drafts.find? (fun x => x.id == 1)
      = some { c1PublishedRow with
                 title := "NT", body := "NB", hashtags := "#n", updated_at := 7 } :=
  c1_amended_no_terminal_guard c1Db 7 1 "NT" "NB" "#n" c1PublishedRow (by decide)

/-! ## Claim C6: image precedence at publish. -/

/-- Counterexample to claim C6: for computing the image used by
_publish_draft, the draft's final_image_url takes precedence over the
moderator-supplied photo_file_id argument — the source comment and docstring
even state the priority final_image_url before photo_file_id — so an
explicit photo override does NOT take precedence over final_image_url as the
claim states. -/
theorem c6_counterexample :
    resolve_publish_image (some "https://img.example/final.jpg") (some "override-file")
      = some "https://img.example/final.jpg" ∧
    (some "https://img.example/final.jpg" : Option String) ≠ some "override-file" := by
  refine ⟨rfl, by decide⟩

/-- Amended claim C6: when composing the outgoing message, the draft's
final_image_url (when truthy) takes precedence over everything — the whole
publish run is independent of the photo_file_id argument — and only when
final_image_url is absent or empty does the passed photo (the moderator
override or the source post's photo, whichever the caller supplied) get
used, falling back to publishing with no image. -/
theorem c6_amended_final_image_precedence (db : Db) (now draft_id : Nat)
    (channels : List String) (p1 p2 : Option String) (u : Option Nat) (sender : Sender)
    (d : DraftView) (hget : get_draft_post db draft_id = some d)
    (hfin : strTruthy d.final_image_url = true) :
    publish_draft db now draft_id channels p1 u sender
      = publish_draft db now draft_id channels p2 u sender ∧
    ∀ f p : Option String, strTruthy f = false →
      resolve_publish_image f p = (if strTruthy p then p else none) := by
  constructor
  · have h1 : resolve_publish_image d.final_image_url p1 = d.final_image_url := by
      unfold resolve_publish_image
      rw [if_pos hfin]
    have h2 : resolve_publish_image d.final_image_url p2 = d.final_image_url := by
      unfold resolve_publish_image
      rw [if_pos hfin]
    unfold publish_draft
    rw [hget]
    simp only [h1, h2]
  · intro f p hf
    unfold resolve_publish_image
    rw [if_neg (by rw [hf]; exact Bool.false_ne_true)]

/-- Draft carrying a truthy final_image_url, and a sender for which every
call succeeds. -/
def c6Row : DraftRow :=
  { samplePendingDraft with final_image_url := some "https://img.example/final.jpg" }

def c6Db : Db := ⟨[sampleSource], [c6Row]⟩

def okSender : Sender :=
  ⟨fun _ _ => .ok 11, fun _ _ => .ok 12, fun _ _ => .ok 13, fun _ _ => .ok 14⟩

/-- Witness for c6_amended_final_image_precedence: with a truthy
final_image_url the publish run with an explicit photo override equals the
run without one. -/
theorem c6_amended_witness :
    publish_draft c6Db 5 1 ["@target"] (some "override-file") (some 7) okSender
      = publish_draft c6Db 5 1 ["@target"] none (some 7) okSender :=
  (c6_amended_final_image_precedence c6Db 5 1 ["@target"] (some "override-file") none
    (some 7) okSender _ rfl rfl).1

/-! ## Claim C2: at-least-one-success publish commit. -/

/-- Sender for the three-channel scenario: text sends succeed on A and C and
fail on B. -/
def c2Sender : Sender :=
  ⟨fun _ _ => .error "no", fun _ _ => .error "no", fun _ _ => .error "no",
    fun c _ => if c == "B" then .error "boom" else if c == "A" then .ok 11 else .ok 13⟩

/-- Counterexample to claim C2: publishing to channels A, B, C with B failing
leaves publish_target recording ONLY the first successful channel A (the
single target_chat_id/target_message_id pair) — channel C, although its send
succeeded, is not contained in the recorded target, contrary to the claim
that publish_target contains both A and C. -/
theorem c2_counterexample :
    (publish_draft sampleDb 5 1 ["A", "B", "C"] none (some 7) c2Sender).toOption.map
        (fun res => (res.db.drafts.map fun r =>
          (r.status, r.target_chat_id, r.target_message_id), res.errors,
          res.publishedCount))
      = some ([("published", some "A", some 11)], ["Канал B: boom"], 2) ∧
    (some "A" : Option String) ≠ some "C" := by
  refine ⟨by decide, by decide⟩

/-- Amended claim C2: for a publish of a pending draft to channels A, B, C
where the text send to B fails and the sends to A and C succeed, the draft
becomes published, the recorded publish target is exactly the pair of the
FIRST successful channel A with its message id (later successes such as C
still send but are not recorded, and the transition is not re-triggered),
and the error list names B; the triggering moderator receives the
aggregated error report. -/
theorem c2_amended_first_success_commit (db : Db) (now draft_id : Nat)
    (A B C : String) (mA mC : Nat) (e : String) (u : Nat) (sender : Sender)
    (d : DraftView) (row : DraftRow)
    (hrow : db.drafts.find? (fun x => x.id == draft_id) = some row)
    (hget : get_draft_post db draft_id = some d)
    (hb1 : (d.body == "") = false) (hb2 : (pyStripStr d.body == "") = false)
    (hfin : d.final_image_url = none)
    (hA : sender.sendMessage A d.body = .ok mA)
    (hB : sender.sendMessage B d.body = .error e)
    (hC : sender.sendMessage C d.body = .ok mC) :
    publish_draft db now draft_id [A, B, C] none (some u) sender
      = .ok ⟨mark_draft_published db now draft_id A mA, 2,
          ["Канал " ++ B ++ ": " ++ e],
          [(u, "⚠️ Ошибки при публикации:\n"
            ++ String.intercalate "\n" ["Канал " ++ B ++ ": " ++ e])]⟩ ∧
    (mark_draft_published db now draft_id A mA).drafts.find? (fun x => x.id == draft_id)
      = some { row with
                 status := "published", target_chat_id := some A,
                 target_message_id := some mA, updated_at := now } := by
  have hpt : build_post_text d.title d.body d.hashtags = d.body := by
    unfold build_post_text
    rw [if_pos (by rw [bne, bne, hb1, hb2]; rfl)]
  have hrc : ∀ ch : String, run_channel sender none d.body ch
      = (match sender.sendMessage ch d.body with
        | .ok m => (some m, [])
        | .error e2 => (none, ["Канал " ++ ch ++ ": " ++ e2])) := by
    intro ch
    unfold run_channel
    rw [if_neg (by rw [hb1, hb2]; simp)]
  have hrcA : run_channel sender none d.body A = (some mA, []) := by rw [hrc, hA]
  have hrcB : run_channel sender none d.body B
      = (none, ["Канал " ++ B ++ ": " ++ e]) := by rw [hrc, hB]
  have hrcC : run_channel sender none d.body C = (some mC, []) := by rw [hrc, hC]
  have hloop : publish_loop sender none d.body [A, B, C] 0 none []
      = (2, some (A, mA), ["Канал " ++ B ++ ": " ++ e]) := by
    unfold publish_loop
    rw [hrcA]
    unfold publish_loop
    rw [hrcB]
    unfold publish_loop
    rw [hrcC]
    unfold publish_loop
    simp
  constructor
  · unfold publish_draft
    rw [hget]
    simp only [hpt, hfin]
    rw [if_neg (by rw [hb1, hb2]; simp)]
    have hresolve : resolve_publish_image none none = (none : Option String) := rfl
    simp only [hresolve, hloop]
    simp
  · unfold mark_draft_published updateWhereId
    have heq := find?_map_ite db.drafts (fun x => x.id == draft_id)
      (fun x => ({ x with
                     status := "published", target_chat_id := some A,
                     target_message_id := some mA, updated_at := now } : DraftRow))
      (fun a => rfl)
    rw [hrow] at heq
    exact heq

/-- Witness for c2_amended_first_success_commit at the concrete scenario. -/
theorem c2_amended_witness :
    publish_draft sampleDb 5 1 ["A", "B", "C"] none (some 7) c2Sender
      = .ok ⟨mark_draft_published sampleDb 5 1 "A" 11, 2,
          ["Канал " ++ "B" ++ ": " ++ "boom"],
          [(7, "⚠️ Ошибки при публикации:\n"
            ++ String.intercalate "\n" ["Канал " ++ "B" ++ ": " ++ "boom"])]⟩ :=
  (c2_amended_first_success_commit sampleDb 5 1 "A" "B" "C" 11 13 "boom" 7 c2Sender
    _ samplePendingDraft (by decide) rfl (by decide) (by decide) rfl rfl rfl rfl).1

/-! ## Claim C3: all-fail publish leaves the draft open. -/

/-- The per-channel error lists of a publish run, concatenated in channel
order: the aggregate reported to the moderator. -/
def channel_errors (sender : Sender) (img : Option String) (pt : String) :
    List String → List String
  | [] => []
  | c :: rest => (run_channel sender img pt c).2 ++ channel_errors sender img pt rest

theorem run_channel_fail_errors {sender : Sender} {img : Option String} {pt c : String}
    (h : (run_channel sender img pt c).1 = none) :
    (run_channel sender img pt c).2 ≠ [] := by
  rcases img with _ | i
  · simp only [run_channel] at h ⊢
    by_cases hp : (pt == "" || pyStripStr pt == "") = true
    · rw [if_pos hp]
      simp
    · rw [if_neg hp] at h ⊢
      rcases hm : sender.sendMessage c pt with e | m <;> simp only [hm] at h ⊢
      · simp
      · simp at h
  · simp only [run_channel] at h ⊢
    by_cases hu : (str_starts_with i "http://" || str_starts_with i "https://") = true
    · rw [if_pos hu] at h ⊢
      rcases h1 : sender.sendPhotoByUrl c i with e1 | m1 <;> simp only [h1] at h ⊢
      · rcases h2 : sender.sendMessage c pt with e2 | m2 <;> simp only [h2] at h ⊢
        · simp
        · simp at h
      · simp at h
    · rw [if_neg hu] at h ⊢
      rcases h1 : sender.sendPhotoByFileId c i with e1 | m1 <;> simp only [h1] at h ⊢
      · rcases h2 : sender.sendPhotoDownloadedFile c i with e2 | m2 <;>
          simp only [h2] at h ⊢
        · rcases h3 : sender.sendMessage c pt with e3 | m3 <;> simp only [h3] at h ⊢
          · simp
          · simp at h
        · simp at h
      · simp at h

theorem publish_loop_all_fail (sender : Sender) (img : Option String) (pt : String)
    (channels : List String) :
    ∀ (cnt : Nat) (fs : Option (String × Nat)) (errs : List String),
    (∀ c ∈ channels, (run_channel sender img pt c).1 = none) →
    publish_loop sender img pt channels cnt fs errs
      = (cnt, fs, errs ++ channel_errors sender img pt channels) := by
  induction channels with
  | nil =>
    intro cnt fs errs _
    simp [publish_loop, channel_errors]
  | cons c rest ih =>
    intro cnt fs errs h
    have hc0 : (run_channel sender img pt c).1 = none := h c (by simp)
    rcases hc : run_channel sender img pt c with ⟨o, es⟩
    rw [hc] at hc0
    simp only at hc0
    subst hc0
    unfold publish_loop
    rw [hc]
    have hrest : ∀ x ∈ rest, (run_channel sender img pt x).1 = none := by
      intro x hx
      exact h x (by simp [hx])
    show publish_loop sender img pt rest cnt fs (errs ++ es)
      = (cnt, fs, errs ++ channel_errors sender img pt (c :: rest))
    rw [ih cnt fs (errs ++ es) hrest]
    rw [show channel_errors sender img pt (c :: rest)
      = (run_channel sender img pt c).2 ++ channel_errors sender img pt rest from rfl]
    rw [hc]
    simp

/-- Claim C3: if the send to every target channel fails during a publish of a
pending draft, the database is left exactly unchanged — in particular the
draft row keeps its pending_moderation status, so a later approve can retry
it — no publish commit happens (publishedCount = 0), and the moderator who
triggered the publish receives one aggregated message listing every
per-channel error, which is non-empty. -/
theorem c3_all_fail_leaves_pending (db : Db) (now draft_id : Nat)
    (channels : List String) (photo : Option String) (u : Nat) (sender : Sender)
    (d : DraftView) (row : DraftRow)
    (hget : get_draft_post db draft_id = some d)
    (hrow : db.drafts.find? (fun x => x.id == draft_id) = some row)
    (hst : row.status = "pending_moderation")
    (hb1 : (d.body == "") = false) (hb2 : (pyStripStr d.body == "") = false)
    (hch : channels ≠ [])
    (hfail : ∀ c ∈ channels,
      (run_channel sender (resolve_publish_image d.final_image_url photo)
        d.body c).1 = none) :
    publish_draft db now draft_id channels photo (some u) sender
      = .ok ⟨db, 0,
          channel_errors sender (resolve_publish_image d.final_image_url photo)
            d.body channels,
          [(u, "⚠️ Ошибки при публикации:\n" ++ String.intercalate "\n"
            (channel_errors sender (resolve_publish_image d.final_image_url photo)
              d.body channels))]⟩ ∧
    channel_errors sender (resolve_publish_image d.final_image_url photo)
      d.body channels ≠ [] ∧
    db.drafts.find? (fun x => x.id == draft_id) = some row ∧
    row.status = "pending_moderation" := by
  have hE : channel_errors sender (resolve_publish_image d.final_image_url photo)
      d.body channels ≠ [] := by
    rcases channels with _ | ⟨c, rest⟩
    · exact absurd rfl hch
    · unfold channel_errors
      intro hemp
      rcases List.append_eq_nil.mp hemp with ⟨h1, _⟩
      exact run_channel_fail_errors (hfail c (by simp)) h1
  refine ⟨?_, hE, hrow, hst⟩
  have hpt : build_post_text d.title d.body d.hashtags = d.body := by
    unfold build_post_text
    rw [if_pos (by rw [bne, bne, hb1, hb2]; rfl)]
  unfold publish_draft
  rw [hget]
  simp only [hpt]
  rw [if_neg (by rw [hb1, hb2]; simp)]
  rw [publish_loop_all_fail _ _ _ _ 0 none [] hfail]
  simp only [List.nil_append]
  have hEmpty : (channel_errors sender
      (resolve_publish_image d.final_image_url photo) d.body channels).isEmpty
      = false := by
    rcases he : channel_errors sender (resolve_publish_image d.final_image_url photo)
        d.body channels with _ | ⟨x, xs⟩
    · exact absurd he hE
    · rfl
  rw [hEmpty]
  simp

/-- A sender for which every network call fails. -/
def failSender : Sender :=
  ⟨fun _ _ => .error "down", fun _ _ => .error "down", fun _ _ => .error "down",
    fun _ _ => .error "down"⟩

/-- Witness for c3_all_fail_leaves_pending at a concrete all-fail publish. -/
theorem c3_all_fail_witness :
    publish_draft sampleDb 5 1 ["X", "Y"] none (some 7) failSender
      = .ok ⟨sampleDb, 0,
          channel_errors failSender (resolve_publish_image none none)
            "Old body" ["X", "Y"],
          [(7, "⚠️ Ошибки при публикации:\n" ++ String.intercalate "\n"
            (channel_errors failSender (resolve_publish_image none none)
              "Old body" ["X", "Y"]))]⟩ :=
  (c3_all_fail_leaves_pending sampleDb 5 1 ["X", "Y"] none 7 failSender _
    samplePendingDraft rfl (by decide) rfl (by decide) (by decide) (by decide)
    (by decide)).1

/-! ## Claim C4: approve on terminal drafts. -/

/-- UPDATE draft_posts SET status = ? WHERE id = ?: overwrite one draft row
status, used to compare runs of the handlers on drafts differing only in
status. -/
def set_draft_status (db : Db) (draft_id : Nat) (s : String) : Db :=
  { db with drafts := updateWhereId db.drafts draft_id fun r => { r with status := s } }

theorem get_draft_post_set_status (db : Db) (draft_id : Nat) (s : String) :
    get_draft_post (set_draft_status db draft_id s) draft_id
      = (get_draft_post db draft_id).map (fun v => { v with status := s }) := by
  unfold get_draft_post set_draft_status updateWhereId
  rw [find?_map_ite db.drafts (fun x => x.id == draft_id)
    (fun r => ({ r with status := s } : DraftRow)) (fun a => rfl)]
  cases hd : db.drafts.find? (fun x => x.id == draft_id) with
  | none => rfl
  | some d0 =>
    simp only [Option.map_some']
    cases hs : db.sources.find? (fun x => x.id == d0.source_post_id) with
    | none => rfl
    | some s0 => rfl

theorem publish_draft_shape (db1 db2 : Db) (now draft_id : Nat) (ch : List String)
    (p : Option String) (u : Option Nat) (sender : Sender) (d : DraftView) (s : String)
    (h1 : get_draft_post db1 draft_id = some { d with status := s })
    (h2 : get_draft_post db2 draft_id = some d) :
    (publish_draft db1 now draft_id ch p u sender).map (fun _ => ())
      = (publish_draft db2 now draft_id ch p u sender).map (fun _ => ()) := by
  unfold publish_draft
  rw [h1, h2]
  simp only []
  by_cases hb : (build_post_text d.title d.body d.hashtags == ""
      || pyStripStr (build_post_text d.title d.body d.hashtags) == "") = true
  · rw [if_pos hb, if_pos hb]
  · rw [if_neg hb, if_neg hb]
    rcases ht : publish_loop sender (resolve_publish_image d.final_image_url p)
        (build_post_text d.title d.body d.hashtags) ch 0 none [] with ⟨cnt, fs, errs⟩
    rfl

/-- A terminal (published) draft that also carries a final image. -/
def c4Row : DraftRow :=
  { c1PublishedRow with final_image_url := some "https://img.example/final.jpg" }

def c4Db : Db := ⟨[sampleSource], [c4Row]⟩

/-- Counterexample to claim C4: approving a draft whose status is already the
terminal published does NOT respond already handled and stop — _handle_approve
performs no status check: here it re-enters the publish flow, immediately
re-publishes (final image present, single configured channel), and
overwrites the draft's target metadata, changing the draft. -/
theorem c4_counterexample :
    c4Row.status = "published" ∧
    (handle_approve c4Db 9 1 ["@main"] [] 7 okSender).toOption.map
        (fun o => (o.result, o.db.drafts.map fun r =>
          (r.status, r.target_chat_id, r.target_message_id)))
      = some (.publishedNow "@main", [("published", some "@main", some 11)]) ∧
    (some "@main" : Option String) ≠ some "@chan" := by
  refine ⟨rfl, by decide, by decide⟩

/-- Amended claim C4: approve is NOT an idempotent no-op on terminal drafts —
the approve handler never inspects the draft status: the outcome
classification of approve (not-found, immediate publish, channel menu, or
publish-options menu) is invariant under overwriting the draft's status with
any value, including the terminal published and rejected; only a missing
draft stops the flow. -/
theorem c4_amended_approve_ignores_status (db : Db) (now draft_id : Nat)
    (cfg : List String) (st : PubStates) (user : Nat) (sender : Sender) (s : String) :
    (handle_approve (set_draft_status db draft_id s) now draft_id cfg st user
        sender).map ApproveOut.result
      = (handle_approve db now draft_id cfg st user sender).map ApproveOut.result := by
  unfold handle_approve
  rw [get_draft_post_set_status]
  cases hd : get_draft_post db draft_id with
  | none => rfl
  | some d =>
    simp only [Option.map_some']
    by_cases hfin : strTruthy d.final_image_url = true
    · rw [if_pos hfin, if_pos hfin]
      by_cases hlen : (cfg.length == 1) = true
      · rw [if_pos hlen, if_pos hlen]
        have hpub := publish_draft_shape (set_draft_status db draft_id s) db now draft_id
          [cfg.headD ""] none (some user) sender d s
          (by rw [get_draft_post_set_status, hd]; rfl) hd
        rcases hp1 : publish_draft (set_draft_status db draft_id s) now draft_id
            [cfg.headD ""] none (some user) sender with e1 | r1 <;>
          rcases hp2 : publish_draft db now draft_id [cfg.headD ""] none (some user)
            sender with e2 | r2 <;> rw [hp1, hp2] at hpub <;> simp_all [Except.map]
      · rw [if_neg hlen, if_neg hlen]
        rfl
    · rw [if_neg hfin, if_neg hfin]
      rfl

/-! ## Claim C5: idempotent delivery. -/

/-- Counterexample to claim C5: with moderators 1 and 2 and one pending
draft 5, a first tick in which only the delivery to moderator 1 succeeds
records sent_to as the set containing 1 alone; the next tick sees an
incomplete set and re-sends to ALL moderators — not only to the un-notified
moderator 2 — so moderator 1 receives a second notification for the same
draft within one process lifetime. -/
theorem c5_counterexample :
    (run_ticks [1, 2] [⟨5, some 0⟩] [fun m => m == 1, fun _ => true] []).2
      = [(1, 5), (1, 5), (2, 5)] ∧
    ¬ ((run_ticks [1, 2] [⟨5, some 0⟩] [fun m => m == 1, fun _ => true] []).2).Nodup := by
  refine ⟨by decide, by decide⟩

theorem setEqList_refl (l : List Nat) : setEqList l l = true := by
  unfold setEqList
  have h : l.all (fun x => l.contains x) = true := by
    rw [List.all_eq_true]
    intro x hx
    exact List.elem_iff.mpr hx
  rw [h]
  rfl

theorem check_nil_pending (mods : List Nat) (ok : Nat → Bool) (sent : SentDrafts) :
    check_and_send_new_drafts mods ok [] sent = (sent, []) := rfl

theorem run_ticks_nil_pending (mods : List Nat) :
    ∀ (oracles : List (Nat → Bool)) (sent : SentDrafts),
    run_ticks mods [] oracles sent = (sent, []) := by
  intro oracles
  induction oracles with
  | nil => intro sent; rfl
  | cons ok os ih =>
    intro sent
    unfold run_ticks
    rw [check_nil_pending]
    simp [ih]

theorem check_cons_skip (mods : List Nat) (ok : Nat → Bool) (d : PendingDraftInfo)
    (rest : List PendingDraftInfo) (sent : SentDrafts) (s : List Nat)
    (hl : lookupSent sent d.id = some s) (he : setEqList s mods = true) :
    check_and_send_new_drafts mods ok (d :: rest) sent = (sent, []) := by
  unfold check_and_send_new_drafts
  show List.foldl _ (sent, ([] : List (Nat × Nat))) [d] = (sent, [])
  rw [List.foldl_cons, List.foldl_nil]
  simp only [hl, he]
  rfl

theorem check_cons_old (mods : List Nat) (ok : Nat → Bool) (d : PendingDraftInfo)
    (rest : List PendingDraftInfo) (sent : SentDrafts) (a : Nat)
    (ha : d.ageHours = some a) (hgt : a > 168) :
    check_and_send_new_drafts mods ok (d :: rest) sent = (sent, []) := by
  unfold check_and_send_new_drafts
  show List.foldl _ (sent, ([] : List (Nat × Nat))) [d] = (sent, [])
  rw [List.foldl_cons, List.foldl_nil]
  cases hl : lookupSent sent d.id with
  | none => simp [hl, ha, hgt]
  | some s =>
    by_cases he : setEqList s mods = true
    · simp [hl, he]
    · simp [hl, he, ha, hgt]

theorem check_cons_fresh_send (mods : List Nat) (ok : Nat → Bool) (d : PendingDraftInfo)
    (rest : List PendingDraftInfo)
    (hyoung : ∀ a, d.ageHours = some a → ¬ a > 168)
    (hfil : mods.filter ok = mods) (hmods : mods ≠ []) :
    check_and_send_new_drafts mods ok (d :: rest) []
      = ([(d.id, mods)], mods.map fun m => (m, d.id)) := by
  unfold check_and_send_new_drafts
  show List.foldl _ (([] : SentDrafts), ([] : List (Nat × Nat))) [d]
    = ([(d.id, mods)], mods.map fun m => (m, d.id))
  rw [List.foldl_cons, List.foldl_nil]
  have hl : lookupSent [] d.id = none := rfl
  simp only [hl]
  have hne : mods.isEmpty = false := by
    cases mods with
    | nil => exact absurd rfl hmods
    | cons x xs => rfl
  cases hage : d.ageHours with
  | none =>
    simp only [send_draft_to_moderators, hfil, hne]
    simp [setSent]
  | some a =>
    simp only [if_neg (hyoung a hage), send_draft_to_moderators, hfil, hne]
    simp [setSent]

theorem run_ticks_saturated (mods : List Nat) (d : PendingDraftInfo)
    (rest : List PendingDraftInfo) (s : List Nat) (he : setEqList s mods = true) :
    ∀ (oracles : List (Nat → Bool)) (sent : SentDrafts),
    lookupSent sent d.id = some s →
    run_ticks mods (d :: rest) oracles sent = (sent, []) := by
  intro oracles
  induction oracles with
  | nil => intro sent _; rfl
  | cons ok os ih =>
    intro sent hl
    unfold run_ticks
    rw [check_cons_skip mods ok d rest sent s hl he]
    simp [ih sent hl]

theorem run_ticks_old (mods : List Nat) (d : PendingDraftInfo)
    (rest : List PendingDraftInfo) (a : Nat) (ha : d.ageHours = some a)
    (hgt : a > 168) :
    ∀ (oracles : List (Nat → Bool)) (sent : SentDrafts),
    run_ticks mods (d :: rest) oracles sent = (sent, []) := by
  intro oracles
  induction oracles with
  | nil => intro sent; rfl
  | cons ok os ih =>
    intro sent
    unfold run_ticks
    rw [check_cons_old mods ok d rest sent a ha hgt]
    simp [ih sent]

theorem check_cons_fresh_nomods (ok : Nat → Bool) (d : PendingDraftInfo)
    (rest : List PendingDraftInfo) :
    check_and_send_new_drafts [] ok (d :: rest) [] = ([], []) := by
  unfold check_and_send_new_drafts
  show List.foldl _ (([] : SentDrafts), ([] : List (Nat × Nat))) [d] = ([], [])
  rw [List.foldl_cons, List.foldl_nil]
  have hl : lookupSent [] d.id = none := rfl
  simp only [hl]
  cases hage : d.ageHours with
  | none => simp [send_draft_to_moderators]
  | some a =>
    by_cases hgt : a > 168
    · simp [hgt]
    · simp [hgt, send_draft_to_moderators]

theorem run_ticks_no_mods (d : PendingDraftInfo) (rest : List PendingDraftInfo) :
    ∀ (oracles : List (Nat → Bool)),
    run_ticks [] (d :: rest) oracles [] = ([], []) := by
  intro oracles
  induction oracles with
  | nil => rfl
  | cons ok os ih =>
    unfold run_ticks
    rw [check_cons_fresh_nomods ok d rest]
    simp [ih]

theorem run_ticks_all_success_nodup (moderators : List Nat) (pending : List PendingDraftInfo)
    (oracles : List (Nat → Bool))
    (hnd : moderators.Nodup)
    (hok : ∀ ok ∈ oracles, ∀ m : Nat, ok m = true) :
    ((run_ticks moderators pending oracles []).2).Nodup := by
  cases pending with
  | nil =>
    rw [run_ticks_nil_pending]
    simp
  | cons d rest =>
    by_cases hold : ∃ a, d.ageHours = some a ∧ a > 168
    · obtain ⟨a, ha, hgt⟩ := hold
      rw [run_ticks_old moderators d rest a ha hgt]
      simp
    · push_neg at hold
      have hyoung : ∀ a, d.ageHours = some a → ¬ a > 168 := by
        intro a ha
        exact Nat.not_lt.mpr (hold a ha)
      cases oracles with
      | nil =>
        show ((run_ticks moderators (d :: rest) [] []).2).Nodup
        simp [run_ticks]
      | cons ok os =>
        cases moderators with
        | nil =>
          rw [run_ticks_no_mods d rest]
          simp
        | cons m0 ms =>
          have hfil : (m0 :: ms).filter ok = m0 :: ms :=
            List.filter_eq_self.mpr fun x _ => hok ok (by simp) x
          have hne : (m0 :: ms) ≠ ([] : List Nat) := by simp
          unfold run_ticks
          rw [check_cons_fresh_send (m0 :: ms) ok d rest hyoung hfil hne]
          have hlook : lookupSent [(d.id, m0 :: ms)] d.id = some (m0 :: ms) := by
            simp [lookupSent]
          have hsat := run_ticks_saturated (m0 :: ms) d rest (m0 :: ms)
            (setEqList_refl (m0 :: ms)) os [(d.id, m0 :: ms)] hlook
          simp only [hsat]
          simp only [List.append_nil]
          have hinj : Function.Injective (fun x : Nat => (x, d.id)) := by
            intro a b hab
            simpa using hab
          exact hnd.map hinj

/-- Amended claim C5: delivery is idempotent only when every send succeeds —
if in every tick the delivery to every moderator succeeds, then over any
number of ticks each (moderator, draft) pair is notified at most once (the
delivery event list has no duplicates); and a draft already recorded as
delivered to the full moderator set is always skipped by a tick.  When some
send fails, re-delivery goes to all moderators, not only to those not yet
notified (see the counterexample). -/
theorem c5_amended_idempotent_when_sends_succeed (moderators : List Nat)
    (pending : List PendingDraftInfo) (oracles : List (Nat → Bool))
    (hnd : moderators.Nodup)
    (hok : ∀ ok ∈ oracles, ∀ m : Nat, ok m = true) :
    ((run_ticks moderators pending oracles []).2).Nodup ∧
    (∀ (sent : SentDrafts) (ok : Nat → Bool) (d : PendingDraftInfo)
      (rest : List PendingDraftInfo) (s : List Nat),
      lookupSent sent d.id = some s → setEqList s moderators = true →
      check_and_send_new_drafts moderators ok (d :: rest) sent = (sent, [])) :=
  ⟨run_ticks_all_success_nodup moderators pending oracles hnd hok,
    fun sent ok d rest s hl he => check_cons_skip moderators ok d rest sent s hl he⟩

/-- Witness for c5_amended_idempotent_when_sends_succeed at a concrete
all-success two-tick run. -/
theorem c5_amended_witness :
    ((run_ticks [1, 2] [⟨5, some 0⟩] [fun _ => true, fun _ => true] []).2).Nodup :=
  (c5_amended_idempotent_when_sends_succeed [1, 2] [⟨5, some 0⟩]
    [fun _ => true, fun _ => true] (by decide)
    (by
      intro ok hok m
      rcases List.mem_cons.mp hok with h | h
      · subst h
        rfl
      · rcases List.mem_cons.mp h with h2 | h2
        · subst h2
          rfl
        · exact absurd h2 (List.not_mem_nil ok))).1

end S360
